import Mathlib

/-!
Verification of the `EvaluationError` / `EvaluationErrorCode` component and the
client evaluation contract of the rust-sdk feature-flag library, as a shallow
embedding of `src/evaluation/error.rs` and `src/traits.rs`.
-/

/-- Embedding of `EvaluationErrorCode` (src/evaluation/error.rs, lines 24-45):
six fixed variants plus the open `General` variant carrying a free-form
string. -/
inductive EvaluationErrorCode where
  | ProviderNotReady
  | FlagNotFound
  | ParseError
  | TypeMismatch
  | TargetingKeyMissing
  | InvalidContext
  | General (message : String)
  deriving DecidableEq

/-- Embedding of the `EvaluationError` struct (src/evaluation/error.rs,
lines 8-16): an error code plus an optional custom message. -/
structure EvaluationError where
  code : EvaluationErrorCode
  message : Option String
  deriving DecidableEq

/-- Embedding of `impl ToString for EvaluationErrorCode` (src/evaluation/error.rs,
lines 47-59): each fixed variant maps to its canonical uppercase snake token,
and `General message` maps to `message` itself. -/
def EvaluationErrorCode.to_string : EvaluationErrorCode → String
  | .ProviderNotReady => "PROVIDER_NOT_READY"
  | .FlagNotFound => "FLAG_NOT_FOUND"
  | .ParseError => "PARSE_ERROR"
  | .TypeMismatch => "TYPE_MISMATCH"
  | .TargetingKeyMissing => "TARGETING_KEY_MISSING"
  | .InvalidContext => "INVALID_CONTEXT"
  | .General message => message

/-- Embedding of `EvaluationError::new_with_message` (src/evaluation/error.rs,
lines 75-93): computes the default message for the code, then stores the
explicit message if given, otherwise the default. The Rust body contains no
fallible operation, so the embedding is a total function. -/
def EvaluationError.new_with_message (code : EvaluationErrorCode)
    (message : Option String) : EvaluationError :=
  let default_message :=
    match code with
    | .ProviderNotReady =>
        "The value was resolved before the provider was initialized."
    | .FlagNotFound => "The flag could not be found."
    | .ParseError =>
        "An error was encountered parsing data, such as a flag configuration."
    | .TypeMismatch =>
        "The type of the flag value does not match the expected type."
    | .TargetingKeyMissing =>
        "The provider requires a targeting key and one was not provided in the evaluation context."
    | .InvalidContext =>
        "The evaluation context does not meet provider requirements."
    | .General message => message
  { code := code,
    message :=
      match message with
      | some message => some message
      | none => some default_message }

/-- Embedding of `EvaluationError::new` (src/evaluation/error.rs, lines 68-70):
delegates to `new_with_message` with `None`. -/
def EvaluationError.new (code : EvaluationErrorCode) : EvaluationError :=
  EvaluationError.new_with_message code none

/-- Embedding of the `TypedBuilder`-derived builder for `EvaluationError`
(src/evaluation/error.rs, lines 8-16). The `code` field is required; the
`message` field carries `#[builder(default, setter(strip_option, into))]`, so
when the message setter is not called the field is left at its default `none`,
and when it is called with a string `s` the field is set to `some s`. The
`message` argument here is `none` exactly when the setter was not called. -/
def EvaluationError.builder_build (code : EvaluationErrorCode)
    (message : Option String) : EvaluationError :=
  { code := code, message := message }

/-- Embedding of the accessor `EvaluationError::code` (src/evaluation/error.rs,
lines 97-99): returns a reference to the stored code, embedded as the field
itself. -/
def EvaluationError.codeRef (e : EvaluationError) : EvaluationErrorCode :=
  e.code

/-- Embedding of the accessor `EvaluationError::message` (src/evaluation/error.rs,
lines 103-105): `self.message.as_deref()`, which is the stored optional string
viewed as an optional string slice; on the embedding of strings this is the
identity on the stored field. -/
def EvaluationError.messageRef (e : EvaluationError) : Option String :=
  e.message

/-- Embedding of `ResolutionDetails<T>` from the `FeatureProvider` contract:
the provider-returned value plus optional variant and reason metadata. -/
structure ResolutionDetails (T : Type) where
  value : T
  variant : Option String
  reason : Option String

/-- Embedding of `EvaluationDetails<T>`: the client-facing result envelope. -/
structure EvaluationDetails (T : Type) where
  value : T
  flag_key : String
  variant : Option String
  reason : Option String
  error_code : Option EvaluationErrorCode
  error_message : Option String

/-- Modelled from the spec: the implementation of `ClientTraits::evaluate` is
not under src/ — `src/traits.rs` holds only the trait signature. Following
section 4.4 of the spec, `evaluate` dispatches to the bound provider and, on
success, packages the provider resolution into `EvaluationDetails` with no
error fields set; on provider error it packages the caller-supplied default
value plus the error code and message of the `EvaluationError`. The provider
outcome is abstracted as an `Except EvaluationError (ResolutionDetails T)`. -/
def evaluate {T : Type} (flag : String) (default_value : T)
    (providerResult : Except EvaluationError (ResolutionDetails T)) :
    EvaluationDetails T :=
  match providerResult with
  | .ok rd =>
      { value := rd.value, flag_key := flag, variant := rd.variant,
        reason := rd.reason, error_code := none, error_message := none }
  | .error e =>
      { value := default_value, flag_key := flag, variant := none,
        reason := none, error_code := some e.code, error_message := e.message }

/-- C1: for each of the six fixed variants of `EvaluationErrorCode`,
`EvaluationError.new code` returns an error whose `message` field is `some` of
exactly the default message string listed in the section 6 table for that
code. -/
theorem new_fills_table_default_messages :
    (EvaluationError.new .ProviderNotReady).message =
      some "The value was resolved before the provider was initialized." ∧
    (EvaluationError.new .FlagNotFound).message =
      some "The flag could not be found." ∧
    (EvaluationError.new .ParseError).message =
      some "An error was encountered parsing data, such as a flag configuration." ∧
    (EvaluationError.new .TypeMismatch).message =
      some "The type of the flag value does not match the expected type." ∧
    (EvaluationError.new .TargetingKeyMissing).message =
      some "The provider requires a targeting key and one was not provided in the evaluation context." ∧
    (EvaluationError.new .InvalidContext).message =
      some "The evaluation context does not meet provider requirements." :=
  ⟨rfl, rfl, rfl, rfl, rfl, rfl⟩

/-- C2: `EvaluationErrorCode.to_string` maps each of the six fixed variants to
exactly its canonical uppercase snake token from the section 6 table, and maps
`General m` to the string `m` itself, for every string `m`. -/
theorem to_string_wire_tokens (m : String) :
    EvaluationErrorCode.to_string .ProviderNotReady = "PROVIDER_NOT_READY" ∧
    EvaluationErrorCode.to_string .FlagNotFound = "FLAG_NOT_FOUND" ∧
    EvaluationErrorCode.to_string .ParseError = "PARSE_ERROR" ∧
    EvaluationErrorCode.to_string .TypeMismatch = "TYPE_MISMATCH" ∧
    EvaluationErrorCode.to_string .TargetingKeyMissing = "TARGETING_KEY_MISSING" ∧
    EvaluationErrorCode.to_string .InvalidContext = "INVALID_CONTEXT" ∧
    EvaluationErrorCode.to_string (.General m) = m :=
  ⟨rfl, rfl, rfl, rfl, rfl, rfl, rfl⟩

/-- C3: for every string `m`, `General m` uses `m` both as its code-string and
as its default message: `to_string (General m) = m` and
`(EvaluationError.new (General m)).message = some m`. -/
theorem general_code_string_and_default_message (m : String) :
    EvaluationErrorCode.to_string (.General m) = m ∧
    (EvaluationError.new (.General m)).message = some m :=
  ⟨rfl, rfl⟩

/-- C4: for every code (including `General`) and every string `custom`,
`new_with_message code (some custom)` returns an error with message
`some custom` and code equal to `code`; the explicit message overrides the
default. -/
theorem new_with_message_explicit_overrides (code : EvaluationErrorCode)
    (custom : String) :
    (EvaluationError.new_with_message code (some custom)).message = some custom ∧
    (EvaluationError.new_with_message code (some custom)).code = code :=
  ⟨rfl, rfl⟩

/-- C5: for every code, `new_with_message code none` is structurally equal to
`EvaluationError.new code`: passing no message falls back to the default. -/
theorem new_with_message_none_eq_new (code : EvaluationErrorCode) :
    EvaluationError.new_with_message code none = EvaluationError.new code :=
  rfl

/-- C6 counterexample: the claim says every construction path, the builder
included, fills in the default message when no explicit message is supplied.
The builder defaults `message` to `none`: building with code
`ProviderNotReady` and the message setter not called yields `message = none`,
not the table default. -/
theorem builder_leaves_message_none :
    (EvaluationError.builder_build .ProviderNotReady none).message = none ∧
    (EvaluationError.builder_build .ProviderNotReady none).message ≠
      some "The value was resolved before the provider was initialized." :=
  ⟨rfl, fun h => Option.noConfusion h⟩

/-- C6 amended: for the `new` and `new_with_message` construction paths, when
no explicit message is supplied the `message` field is populated with the
code's default message and is never `none` (for any code, the six fixed codes
in particular); the builder path, by contrast, leaves `message` as `none` when
the message setter is not called. -/
theorem constructors_populate_message (code : EvaluationErrorCode) :
    (EvaluationError.new code).message.isSome = true ∧
    (EvaluationError.new_with_message code none).message.isSome = true ∧
    (EvaluationError.new_with_message code none).message =
      (EvaluationError.new code).message ∧
    (EvaluationError.builder_build code none).message = none := by
  cases code <;> exact ⟨rfl, rfl, rfl, rfl⟩

/-- C7: construction of `EvaluationError` is total and never fails: for every
code and every optional message, `new` and `new_with_message` are total
functions (the Rust bodies contain no panicking operation and the embedding is
a total Lean function), and each returns a value carrying the given code; no
code/message combination is rejected. -/
theorem construction_never_fails (code : EvaluationErrorCode)
    (message : Option String) :
    (EvaluationError.new_with_message code message).code = code ∧
    (EvaluationError.new code).code = code :=
  ⟨rfl, rfl⟩

/-- C8: whenever the `EvaluationDetails` returned by the client evaluate has
`error_code` set, its `value` equals the caller-supplied default: resolution
failure never yields a value different from the default. -/
theorem evaluate_default_on_error {T : Type} (flag : String) (d : T)
    (pr : Except EvaluationError (ResolutionDetails T))
    (h : (evaluate flag d pr).error_code.isSome = true) :
    (evaluate flag d pr).value = d := by
  cases pr with
  | ok rd => simp [evaluate] at h
  | error e => rfl

/-- C8 witness: a provider that is not ready makes evaluate return the
caller's default value, here `false` for flag `my-flag`. -/
theorem evaluate_default_on_error_witness :
    (evaluate "my-flag" false
      (Except.error (EvaluationError.new .ProviderNotReady))).error_code.isSome
        = true ∧
    (evaluate "my-flag" false
      (Except.error (EvaluationError.new .ProviderNotReady))).value = false :=
  ⟨rfl, evaluate_default_on_error "my-flag" false
    (Except.error (EvaluationError.new .ProviderNotReady)) rfl⟩

/-- C9: for every code and every optional message argument, the error returned
by `new_with_message` has a `message` field that is `some` (never `none`),
including for the `General` variant, so the `message` accessor on such an
error always returns a present string. -/
theorem new_with_message_always_some (code : EvaluationErrorCode)
    (msg : Option String) :
    (EvaluationError.new_with_message code msg).message.isSome = true ∧
    (EvaluationError.new_with_message code msg).messageRef.isSome = true := by
  cases msg <;> exact ⟨rfl, rfl⟩

/-- C10: the accessors round-trip construction: for every code and optional
message, the error built by `new_with_message` has `codeRef` equal to the
given code, and `messageRef` returns exactly the stored `message` field. -/
theorem accessors_round_trip (code : EvaluationErrorCode)
    (msg : Option String) :
    (EvaluationError.new_with_message code msg).codeRef = code ∧
    (EvaluationError.new_with_message code msg).messageRef =
      (EvaluationError.new_with_message code msg).message :=
  ⟨rfl, rfl⟩
